import Mathlib

/-!
Verification development for the blunux2SB `ai-agent` crate.

The Rust sources are shallowly embedded:
* `crates/ai-agent/src/tools/safety.rs` — regex rule table and `SafetyChecker::check`;
* `crates/ai-agent/src/automations.rs` — `cron_matches` / `field_matches`;
* `crates/ai-agent/src/agent.rs` — `Agent::chat`, `chat_as_user`, `run_automation`,
  `reset_user_conversation`, `execute_tool`, `prompt_confirmation`;
* `crates/ai-agent/src/daemon.rs` — `handle_connection`, `process_ipc_message`,
  `error_response`;
* `crates/ai-agent/src/tools/system.rs` — input validation of `RunCommandTool::execute`.

External effects (the model provider, subprocess execution, the memory files, wall
clock, serde_json parsing of wire bytes) are modelled as explicit oracle parameters;
everything that is pure Rust logic is translated directly.
-/

/-! ### A small regex engine

`safety.rs` builds its rule table from `regex::Regex` patterns and classifies a
command with `Regex::is_match` (unanchored search).  The patterns only use:
literal characters, character classes (`[a-zA-Z]`, `\s`, `\w`, `[23]`), `.`
(any char except newline), concatenation, alternation `|`, `*`, `+`, `?`,
the end anchor `$` and the word boundary `\b`.  The engine below implements
exactly these constructs over `List Char`, tracking the previous character so
that `\b` and start positions are decided correctly.  Character classes are
given by ASCII predicates, which agree with the Rust (Unicode) classes on all
command strings considered here. -/

/-- The previous character of the haystack at the current position
(`none` at the start of the haystack). -/
abbrev Ctx := Option Char

/-- Word character, as in the regex `\w` / the sides of `\b` (ASCII range). -/
def isWordChar (c : Char) : Bool :=
  c.isAlphanum || c = '_'

/-- Whether the position between previous character `p` and remaining input `s`
is a word boundary (`\b`). -/
def isBoundary (p : Ctx) (s : List Char) : Bool :=
  let before := match p with | none => false | some c => isWordChar c
  let after := match s with | [] => false | c :: _ => isWordChar c
  before != after

/-- Regular expressions, restricted to the constructs used by `safety.rs`. -/
inductive Regex where
  | eps : Regex
  | chr (c : Char) : Regex
  | cls (p : Char → Bool) : Regex
  | cat (r s : Regex) : Regex
  | alt (r s : Regex) : Regex
  | star (r : Regex) : Regex
  | eol : Regex
  | wb : Regex

/-- Structural size of a regex, used only to compute a sufficient fuel bound. -/
def Regex.size : Regex → Nat
  | .eps | .chr _ | .cls _ | .eol | .wb => 1
  | .cat r s | .alt r s => r.size + s.size + 1
  | .star r => r.size + 1

/-- All ways of matching a prefix of `s` against `r`; each result is the context
and remainder after the matched prefix.  `fuel` only bounds the recursion depth
so that the definition is structural (and therefore kernel-computable); a star
iteration must consume at least one character (the `filter`), which is complete
because an iteration consuming nothing can always be dropped, so with the
generous fuel chosen in `matchPre` no branch is ever cut off. -/
def matchPreF : Nat → Regex → Ctx → List Char → List (Ctx × List Char)
  | 0, _, _, _ => []
  | _ + 1, .eps, p, s => [(p, s)]
  | _ + 1, .chr _, _, [] => []
  | _ + 1, .chr c, _, d :: s => if d = c then [(some d, s)] else []
  | _ + 1, .cls _, _, [] => []
  | _ + 1, .cls f, _, d :: s => if f d then [(some d, s)] else []
  | fuel + 1, .cat r1 r2, p, s =>
      (matchPreF fuel r1 p s).flatMap fun q => matchPreF fuel r2 q.1 q.2
  | fuel + 1, .alt r1 r2, p, s =>
      matchPreF fuel r1 p s ++ matchPreF fuel r2 p s
  | fuel + 1, .star r, p, s =>
      (p, s) ::
        ((matchPreF fuel r p s).filter (fun q => q.2.length < s.length)).flatMap
          fun q => matchPreF fuel (.star r) q.1 q.2
  | _ + 1, .eol, p, s => if s.isEmpty then [(p, s)] else []
  | _ + 1, .wb, p, s => if isBoundary p s then [(p, s)] else []

/-- Prefix matching with a depth budget that dominates the recursion depth of
`matchPreF` (each level either shrinks the regex or consumes input). -/
def matchPre (r : Regex) (p : Ctx) (s : List Char) : List (Ctx × List Char) :=
  matchPreF ((s.length + 2) ^ (r.size + 1)) r p s

/-- Unanchored search: try every start position, tracking the previous character. -/
def searchFrom (r : Regex) (p : Ctx) : List Char → Bool
  | [] => !(matchPre r p []).isEmpty
  | c :: rest => !(matchPre r p (c :: rest)).isEmpty || searchFrom r (some c) rest

/-- `Regex::is_match`: does `r` match anywhere in `s`? -/
def Regex.isMatch (r : Regex) (s : String) : Bool :=
  searchFrom r none s.data

/-! Pattern-building helpers (`+`, `?` and string literals are regex sugar). -/

/-- Concatenation of a list of regexes. -/
def Regex.seq (rs : List Regex) : Regex :=
  rs.foldr .cat .eps

/-- The literal string `s` as a regex. -/
def Regex.lit (s : String) : Regex :=
  .seq (s.data.map .chr)

/-- `r+` -/
def Regex.plus (r : Regex) : Regex := .cat r (.star r)

/-- `r?` -/
def Regex.opt (r : Regex) : Regex := .alt r .eps

/-- First-of alternation of a list of regexes (`a|b|c|…`). -/
def Regex.alts : List Regex → Regex
  | [] => .eps
  | [r] => r
  | r :: rs => .alt r (Regex.alts rs)

/-- `\s` (ASCII whitespace, matching the whitespace in the commands at issue). -/
def wsC : Regex := .cls Char.isWhitespace

/-- `[a-zA-Z]` -/
def alphaC : Regex := .cls Char.isAlpha

/-- `\w` -/
def wordC : Regex := .cls isWordChar

/-- `.` — any character except a newline, as in the `regex` crate's default. -/
def dotC : Regex := .cls (fun c => !(c = '\n'))

/-- `(sd|nvme|vd|hd)` -/
def devAlt : Regex := .alts [.lit "sd", .lit "nvme", .lit "vd", .lit "hd"]

/-- `(passwd|shadow|sudoers|gshadow|group)` -/
def credAlt : Regex :=
  .alts [.lit "passwd", .lit "shadow", .lit "sudoers", .lit "gshadow", .lit "group"]

/-! ### safety.rs — rule table and `SafetyChecker::check` -/

/-- `PermissionLevel` from `safety.rs`. -/
inductive PermissionLevel where
  | Safe
  | RequiresConfirmation
  | Blocked
deriving DecidableEq, Repr

/-- `SafetyResult` from `safety.rs`. -/
inductive SafetyResult where
  | Safe
  | RequiresConfirmation (reason : String)
  | Blocked (reason : String)
deriving DecidableEq, Repr

/-- `rm\s+(-[a-zA-Z]*f[a-zA-Z]*\s+)?/\s*$` -/
def bp1 : Regex × String :=
  (.seq [.lit "rm", .plus wsC,
      .opt (.seq [.chr '-', .star alphaC, .chr 'f', .star alphaC, .plus wsC]),
      .chr '/', .star wsC, .eol],
   "Recursive deletion of root filesystem")

/-- `rm\s+-[a-zA-Z]*r[a-zA-Z]*f[a-zA-Z]*\s+/` -/
def bp2 : Regex × String :=
  (.seq [.lit "rm", .plus wsC, .chr '-', .star alphaC, .chr 'r', .star alphaC,
      .chr 'f', .star alphaC, .plus wsC, .chr '/'],
   "Recursive forced deletion from root")

/-- `rm\s+-[a-zA-Z]*f[a-zA-Z]*r[a-zA-Z]*\s+/` -/
def bp3 : Regex × String :=
  (.seq [.lit "rm", .plus wsC, .chr '-', .star alphaC, .chr 'f', .star alphaC,
      .chr 'r', .star alphaC, .plus wsC, .chr '/'],
   "Recursive forced deletion from root")

/-- `dd\s+.*if=` -/
def bp4 : Regex × String :=
  (.seq [.lit "dd", .plus wsC, .star dotC, .lit "if="], "Raw disk write with dd")

/-- `mkfs\.\w+\s+/dev/` -/
def bp5 : Regex × String :=
  (.seq [.lit "mkfs.", .plus wordC, .plus wsC, .lit "/dev/"], "Disk format operation")

/-- `>\s*/dev/(sd|nvme|vd|hd)` -/
def bp6 : Regex × String :=
  (.seq [.chr '>', .star wsC, .lit "/dev/", devAlt], "Raw write to block device")

/-- `\|\s*/dev/(sd|nvme|vd|hd)` -/
def bp7 : Regex × String :=
  (.seq [.chr '|', .star wsC, .lit "/dev/", devAlt], "Pipe to block device")

/-- `:\(\)\s*\{` -/
def bp8 : Regex × String :=
  (.seq [.lit ":()", .star wsC, .chr (Char.ofNat 123)], "Fork bomb detected")

/-- `chmod\s+777\s+/\s*$` -/
def bp9 : Regex × String :=
  (.seq [.lit "chmod", .plus wsC, .lit "777", .plus wsC, .chr '/', .star wsC, .eol],
   "Dangerous permission change on root")

/-- `chmod\s+-R\s+777\s+/` -/
def bp10 : Regex × String :=
  (.seq [.lit "chmod", .plus wsC, .lit "-R", .plus wsC, .lit "777", .plus wsC, .chr '/'],
   "Recursive dangerous permission change")

/-- `base64\s+-d.*\|\s*(ba)?sh` -/
def bp11 : Regex × String :=
  (.seq [.lit "base64", .plus wsC, .lit "-d", .star dotC, .chr '|', .star wsC,
      .opt (.lit "ba"), .lit "sh"],
   "Decode-and-execute via base64")

/-- `(curl|wget)\s+.*\|\s*python[23]?` -/
def bp12 : Regex × String :=
  (.seq [.alt (.lit "curl") (.lit "wget"), .plus wsC, .star dotC, .chr '|', .star wsC,
      .lit "python", .opt (.cls fun c => c = '2' || c = '3')],
   "Pipe from internet to Python interpreter")

/-- `(>>?)\s*/etc/(passwd|shadow|sudoers|gshadow|group)\b` -/
def bp13 : Regex × String :=
  (.seq [.chr '>', .opt (.chr '>'), .star wsC, .lit "/etc/", credAlt, .wb],
   "Write to sensitive system credentials file")

/-- `\btee\s+/etc/(passwd|shadow|sudoers|gshadow|group)\b` -/
def bp14 : Regex × String :=
  (.seq [.wb, .lit "tee", .plus wsC, .lit "/etc/", credAlt, .wb],
   "Write to sensitive system credentials file via tee")

/-- `\bvisudo\b` -/
def bp15 : Regex × String :=
  (.seq [.wb, .lit "visudo", .wb], "Modification of sudoers configuration")

/-- `\bshred\b.*/dev/(sd|nvme|vd|hd)` -/
def bp16 : Regex × String :=
  (.seq [.wb, .lit "shred", .wb, .star dotC, .lit "/dev/", devAlt],
   "Destructive disk wipe with shred")

/-- `(pacman|yay)\s+.*-[a-zA-Z]*R` -/
def cp1 : Regex × String :=
  (.seq [.alt (.lit "pacman") (.lit "yay"), .plus wsC, .star dotC, .chr '-',
      .star alphaC, .chr 'R'],
   "Package removal")

/-- `(pacman|yay)\s+.*-[a-zA-Z]*S[a-zA-Z]*y[a-zA-Z]*u` -/
def cp2 : Regex × String :=
  (.seq [.alt (.lit "pacman") (.lit "yay"), .plus wsC, .star dotC, .chr '-',
      .star alphaC, .chr 'S', .star alphaC, .chr 'y', .star alphaC, .chr 'u'],
   "System update")

/-- `(pacman|yay)\s+.*-S\s` -/
def cp3 : Regex × String :=
  (.seq [.alt (.lit "pacman") (.lit "yay"), .plus wsC, .star dotC, .lit "-S", wsC],
   "Package installation")

/-- `systemctl\s+(enable|disable|start|stop|restart|mask)` -/
def cp4 : Regex × String :=
  (.seq [.lit "systemctl", .plus wsC,
      .alts [.lit "enable", .lit "disable", .lit "start", .lit "stop",
             .lit "restart", .lit "mask"]],
   "Service state change")

/-- `sudo\s+` -/
def cp5 : Regex × String :=
  (.seq [.lit "sudo", .plus wsC], "Command requires root privileges")

/-- `(curl|wget)\s+.*\|\s*(ba)?sh` -/
def cp6 : Regex × String :=
  (.seq [.alt (.lit "curl") (.lit "wget"), .plus wsC, .star dotC, .chr '|', .star wsC,
      .opt (.lit "ba"), .lit "sh"],
   "Pipe install from internet")

/-- `reboot|shutdown|poweroff|halt` -/
def cp7 : Regex × String :=
  (.alts [.lit "reboot", .lit "shutdown", .lit "poweroff", .lit "halt"],
   "System power state change")

/-- `\b(useradd|userdel|usermod|groupadd|groupdel)\b` -/
def cp8 : Regex × String :=
  (.seq [.wb,
      .alts [.lit "useradd", .lit "userdel", .lit "usermod", .lit "groupadd",
             .lit "groupdel"], .wb],
   "User account modification")

/-- `\bpasswd\b` -/
def cp9 : Regex × String :=
  (.seq [.wb, .lit "passwd", .wb], "Password change")

/-- `SafetyChecker::new`'s `blocked_patterns`, in declared order. -/
def blocked_patterns : List (Regex × String) :=
  [bp1, bp2, bp3, bp4, bp5, bp6, bp7, bp8, bp9, bp10, bp11, bp12, bp13, bp14, bp15, bp16]

/-- `SafetyChecker::new`'s `confirm_patterns`, in declared order. -/
def confirm_patterns : List (Regex × String) :=
  [cp1, cp2, cp3, cp4, cp5, cp6, cp7, cp8, cp9]

/-- Rust `str::trim` — strip whitespace from both ends.  (The standard-library
`String.trim` is not kernel-computable, so the same operation is defined here
over the character list.) -/
def strTrim (s : String) : String :=
  ⟨((s.data.dropWhile Char.isWhitespace).reverse.dropWhile Char.isWhitespace).reverse⟩

/-- One of the two `for (pattern, reason) in …` loops of `SafetyChecker::check`:
the first pattern in declared order matching `t` wins. -/
def checkList : List (Regex × String) → String → Option String
  | [], _ => none
  | (pat, reason) :: rest, t =>
      if pat.isMatch t then some reason else checkList rest t

/-- `SafetyChecker::check` (safety.rs lines 140–162): trim the command, try the
blocked loop, then the confirmation loop. -/
def SafetyChecker.check (command : String) : SafetyResult :=
  match checkList blocked_patterns (strTrim command) with
  | some reason => .Blocked reason
  | none =>
    match checkList confirm_patterns (strTrim command) with
    | some reason => .RequiresConfirmation reason
    | none => .Safe

/-! ### automations.rs — `cron_matches` / `field_matches` -/

/-- Rust `str::parse::<u32>()` on a character list: an optional leading `+`,
then at least one ASCII digit, value below `2^32`. -/
def parse_u32_chars (cs : List Char) : Option Nat :=
  let ds := match cs with
    | '+' :: rest => rest
    | _ => cs
  if ds.isEmpty then none
  else if ds.all Char.isDigit then
    let n := ds.foldl (fun acc c => acc * 10 + (c.toNat - 48)) 0
    if n < 4294967296 then some n else none
  else none

/-- Rust `str::parse::<u32>()`. -/
def parse_u32 (s : String) : Option Nat :=
  parse_u32_chars s.data

/-- Rust `str::strip_prefix("*/")` on the character list. -/
def strip_star_slash : List Char → Option (List Char)
  | '*' :: '/' :: step => some step
  | _ => none

/-- `field_matches` (automations.rs lines 147–161): `*` matches anything,
`*/N` matches multiples of a positive `N`, a plain integer matches exactly. -/
def field_matches (field : String) (value : Nat) : Bool :=
  if field = "*" then true
  else
    match strip_star_slash field.data with
    | some step =>
      match parse_u32_chars step with
      | some n => decide (0 < n) && (value % n == 0)
      | none => false
    | none =>
      match parse_u32 field with
      | some n => n == value
      | none => false

/-- Worker for `split_whitespace`: `acc` is the current word, reversed. -/
def wordsAux : List Char → List Char → List String
  | [], acc => if acc.isEmpty then [] else [⟨acc.reverse⟩]
  | c :: rest, acc =>
    if c.isWhitespace then
      if acc.isEmpty then wordsAux rest [] else ⟨acc.reverse⟩ :: wordsAux rest []
    else wordsAux rest (c :: acc)

/-- Rust `str::split_whitespace` — the non-empty maximal runs of
non-whitespace characters. -/
def split_whitespace (s : String) : List String :=
  wordsAux s.data []

/-- The components of a `chrono::DateTime<Local>` that `cron_matches` reads
(chrono is an external library): `minute()`, `hour()`, `day()`, `month()` and
`weekday().num_days_from_sunday()` (0 = Sunday), in that order. -/
structure CronTime where
  minute : Nat
  hour : Nat
  day : Nat
  month : Nat
  wday : Nat

/-- `cron_matches` (automations.rs lines 125–145): exactly 5 whitespace-separated
fields, each matching its time component. -/
def cron_matches (schedule : String) (now : CronTime) : Bool :=
  let fields := split_whitespace schedule
  if fields.length ≠ 5 then false
  else
    let values := [now.minute, now.hour, now.day, now.month, now.wday]
    (fields.zip values).all fun fv => field_matches fv.1 fv.2

/-! ### providers/mod.rs — messages, content blocks, completion results

`serde_json::Value` is modelled by `Json` (numbers as integers; no claim
inspects numeric payloads). -/

/-- `serde_json::Value`. -/
inductive Json where
  | null : Json
  | bool (b : Bool) : Json
  | num (n : Int) : Json
  | str (s : String) : Json
  | arr (xs : List Json) : Json
  | obj (fields : List (String × Json)) : Json

/-- `Value::get(key)` on an object (`None` on any other variant). -/
def Json.get (j : Json) (key : String) : Option Json :=
  match j with
  | .obj fields => fields.lookup key
  | _ => none

/-- `Value::as_str`. -/
def Json.asStr : Json → Option String
  | .str s => some s
  | _ => none

/-- `input.get(key).and_then(|v| v.as_str())`. -/
def Json.getStr (j : Json) (key : String) : Option String :=
  (j.get key).bind Json.asStr

/-- `Role` from providers/mod.rs. -/
inductive Role where
  | User
  | Assistant
deriving DecidableEq

/-- `ContentBlock` from providers/mod.rs. -/
inductive ContentBlock where
  | Text (text : String)
  | ToolUse (id name : String) (input : Json)
  | ToolResult (tool_use_id content : String) (is_error : Bool)

/-- `Message` from providers/mod.rs. -/
structure Message where
  role : Role
  content : List ContentBlock

/-- `Message::user`. -/
def Message.user (text : String) : Message :=
  { role := .User, content := [.Text text] }

/-- `Message::tool_results`. -/
def Message.tool_results (results : List ContentBlock) : Message :=
  { role := .User, content := results }

/-- `StopReason` from providers/mod.rs. -/
inductive StopReason where
  | EndTurn
  | ToolUse
  | MaxTokens
deriving DecidableEq

/-- `Usage` from providers/mod.rs. -/
structure Usage where
  input_tokens : Nat
  output_tokens : Nat
deriving DecidableEq

/-- `CompletionResult` from providers/mod.rs. -/
structure CompletionResult where
  content : List ContentBlock
  stop_reason : StopReason
  usage : Usage

/-- `CompletionResult::text` — all `Text` blocks joined with newlines. -/
def CompletionResult.text (r : CompletionResult) : String :=
  String.intercalate "\n"
    (r.content.filterMap fun b => match b with
      | .Text t => some t
      | _ => none)

/-- `CompletionResult::tool_uses` — the `(id, name, input)` of every `ToolUse`
block, in content order. -/
def CompletionResult.tool_uses (r : CompletionResult) : List (String × String × Json) :=
  r.content.filterMap fun b => match b with
    | .ToolUse id name input => some (id, name, input)
    | _ => none

/-! ### error.rs — error taxonomy and `Display` strings

Payloads that are foreign types in Rust (`reqwest::Error`, `std::io::Error`)
are modelled by their display strings. -/

/-- `ProviderError` from error.rs. -/
inductive ProviderError where
  | ApiError (status : Nat) (message : String)
  | RateLimit (retry_after_secs : Nat)
  | AuthenticationFailed
  | Network (e : String)
  | SubprocessError (exit_code : Int) (stderr : String)
  | Parse (s : String)
  | EmptyResponse
deriving DecidableEq

/-- `ToolError` from error.rs. -/
inductive ToolError where
  | ExecutionFailed (command : String) (exit_code : Int) (stderr : String)
  | Timeout (secs : Nat)
  | InvalidInput (s : String)
  | Io (e : String)
deriving DecidableEq

/-- `MemoryError` from error.rs. -/
inductive MemoryError where
  | Read (path source : String)
  | Write (path source : String)
deriving DecidableEq

/-- `AgentError` from error.rs (`Config` and `Io` carry display strings). -/
inductive AgentError where
  | Provider (e : ProviderError)
  | Tool (e : ToolError)
  | Memory (e : MemoryError)
  | Config (e : String)
  | SafetyBlock (reason : String)
  | UserCancelled
  | Io (e : String)
deriving DecidableEq

/-- The `thiserror` `Display` of `ProviderError`. -/
def ProviderError.toMessage : ProviderError → String
  | .ApiError status message => "API error " ++ toString status ++ ": " ++ message
  | .RateLimit secs => "Rate limit exceeded — retry after " ++ toString secs ++ "s"
  | .AuthenticationFailed => "Authentication failed — check credentials"
  | .Network e => "Network error: " ++ e
  | .SubprocessError code stderr =>
      "OAuth subprocess exited " ++ toString code ++ ": " ++ stderr
  | .Parse s => "Response parse error: " ++ s
  | .EmptyResponse => "Empty response from provider"

/-- The `thiserror` `Display` of `ToolError`. -/
def ToolError.toMessage : ToolError → String
  | .ExecutionFailed command code stderr =>
      "Command `" ++ command ++ "` failed (exit " ++ toString code ++ "): " ++ stderr
  | .Timeout secs => "Command timed out after " ++ toString secs ++ "s"
  | .InvalidInput s => "Invalid tool input: " ++ s
  | .Io e => "IO error: " ++ e

/-- The `thiserror` `Display` of `MemoryError`. -/
def MemoryError.toMessage : MemoryError → String
  | .Read path source => "Failed to read memory file " ++ path ++ ": " ++ source
  | .Write path source => "Failed to write memory file " ++ path ++ ": " ++ source

/-- The `thiserror` `Display` of `AgentError`. -/
def AgentError.toMessage : AgentError → String
  | .Provider e => "Provider error: " ++ e.toMessage
  | .Tool e => "Tool error: " ++ e.toMessage
  | .Memory e => "Memory error: " ++ e.toMessage
  | .Config e => "Config error: " ++ e
  | .SafetyBlock reason => "Safety block: " ++ reason
  | .UserCancelled => "User cancelled"
  | .Io e => "IO error: " ++ e

/-! ### config.rs / strings.rs — the strings used by `execute_tool` -/

/-- `Language` from config.rs (that name is taken by Mathlib, so `Lang` here). -/
inductive Lang where
  | Korean
  | English
deriving DecidableEq

/-- `strings::cancelled`. -/
def stringsCancelled : Lang → String
  | .Korean => "취소되었습니다."
  | .English => "Cancelled."

/-- `strings::blocked`. -/
def stringsBlocked : Lang → String
  | .Korean => "안전 정책에 의해 차단되었습니다."
  | .English => "Blocked by safety policy."

/-! ### agent.rs — the orchestrator

`Agent` keeps the active conversation and the per-identity map
(`HashMap<String, Vec<Message>>`, modelled extensionally as a function to
`Option`).  The provider (`self.provider.complete(...)`), the tool executor
(`self.execute_tool(...)`, which in the source never returns `Err`) and
`build_system_prompt()` (memory-file I/O) are oracle parameters gathered in
`AgentEnv`; the `let _ = self.memory.append_today(...)` calls are ignored
side effects.  The system prompt and tool definitions are fixed for the whole
loop, as in the source; `MAX_TOKENS` is a constant the oracle closes over. -/

/-- `MAX_TOOL_LOOP_ITERATIONS` (agent.rs line 13). -/
def MAX_TOOL_LOOP_ITERATIONS : Nat := 10

/-- The external effects `Agent::chat` depends on. -/
structure AgentEnv where
  /-- `self.provider.complete(system_prompt, conversation, tool_defs, MAX_TOKENS)`. -/
  complete : String → List Message → Except ProviderError CompletionResult
  /-- `self.execute_tool(id, name, input)` — always `Ok` in the source, so a
  plain `ContentBlock` here. -/
  execTool : String → String → Json → ContentBlock
  /-- The outcome of `self.build_system_prompt()` (reads memory files). -/
  systemPromptRes : Except MemoryError String

/-- `Agent` state (agent.rs lines 16–27): the active conversation and the
per-user conversation map. -/
structure Agent where
  conversation : List Message
  user_conversations : String → Option (List Message)
  auto_confirm : Bool

/-- The text of a message: its `Text` blocks joined with newlines —
the closure applied to `self.conversation.last()` in agent.rs lines 103–116. -/
def messageText (m : Message) : String :=
  String.intercalate "\n"
    (m.content.filterMap fun b => match b with
      | .Text t => some t
      | _ => none)

/-- `self.conversation.last().map(…).unwrap_or_default()`. -/
def lastText (conv : List Message) : String :=
  match conv.getLast? with
  | some m => messageText m
  | none => ""

/-- What one `chat` call produces: the returned `Result`, the final active
conversation, and (instrumentation) how many provider round-trips were made. -/
structure ChatOutcome where
  result : Except AgentError String
  conversation : List Message
  providerCalls : Nat

/-- The `loop` of `Agent::chat` (agent.rs lines 67–100).  The source counts
`iterations` up and breaks when it exceeds `MAX_TOOL_LOOP_ITERATIONS`; here
`fuel` counts the remaining allowed iterations down, so the loop body runs
exactly while `fuel > 0` and the `break` is the `fuel = 0` case, which returns
the last available text (agent.rs lines 102–118). -/
def chatLoop (env : AgentEnv) (sys : String) : Nat → List Message → ChatOutcome
  | 0, conv => { result := .ok (lastText conv), conversation := conv, providerCalls := 0 }
  | fuel + 1, conv =>
    match env.complete sys conv with
    | .error e => { result := .error (.Provider e), conversation := conv, providerCalls := 1 }
    | .ok res =>
      let conv := conv ++ [{ role := .Assistant, content := res.content }]
      match res.stop_reason with
      | .EndTurn | .MaxTokens =>
          { result := .ok res.text, conversation := conv, providerCalls := 1 }
      | .ToolUse =>
          let tool_results := res.tool_uses.map fun t => env.execTool t.1 t.2.1 t.2.2
          let conv :=
            if tool_results.isEmpty then conv else conv ++ [Message.tool_results tool_results]
          let out := chatLoop env sys fuel conv
          { out with providerCalls := out.providerCalls + 1 }

/-- `Agent::chat` (agent.rs lines 55–119): push the user message, build the
system prompt, run the tool-use loop. -/
def chat (env : AgentEnv) (conversation : List Message) (user_message : String) :
    ChatOutcome :=
  let conv := conversation ++ [Message.user user_message]
  match env.systemPromptRes with
  | .error e => { result := .error (.Memory e), conversation := conv, providerCalls := 0 }
  | .ok sys => chatLoop env sys MAX_TOOL_LOOP_ITERATIONS conv

/-- `Agent::reset_user_conversation` (agent.rs lines 191–193). -/
def reset_user_conversation (a : Agent) (phone : String) : Agent :=
  { a with user_conversations := fun k => if k = phone then none else a.user_conversations k }

/-- `Agent::chat_as_user` (agent.rs lines 197–218): remove the identity's stored
conversation (default empty), swap it into the active slot, run `chat`, swap
back and insert the post-chat conversation under the identity.  The result of
`chat` is returned as-is, error or not — the restore is unconditional. -/
def chat_as_user (env : AgentEnv) (a : Agent) (phone user_message : String) :
    Except AgentError String × Agent × Nat :=
  let conv := (a.user_conversations phone).getD []
  let removed := fun k => if k = phone then none else a.user_conversations k
  let out := chat env conv user_message
  (out.result,
   { conversation := a.conversation,
     user_conversations := fun k => if k = phone then some out.conversation else removed k,
     auto_confirm := a.auto_confirm },
   out.providerCalls)

/-- `Agent::run_automation` (agent.rs lines 223–230): `mem::take` the active
conversation (leaving it empty), run `chat` on the empty conversation, then
restore the saved one; the per-user map is untouched. -/
def run_automation (env : AgentEnv) (a : Agent) (action : String) :
    Except AgentError String × Agent × Nat :=
  let saved := a.conversation
  let out := chat env [] action
  (out.result,
   { conversation := saved,
     user_conversations := a.user_conversations,
     auto_confirm := a.auto_confirm },
   out.providerCalls)

/-! ### agent.rs — tool dispatch -/

/-- What `execute_tool` sees of one registered tool: its permission level and
its `execute` behaviour (subprocess execution, modelled as a function of the
input). -/
structure ToolSpec where
  permission_level : PermissionLevel
  execute : Json → Except ToolError String

/-- Rust `str::to_lowercase` (character-wise; ASCII as used here). -/
def strLower (s : String) : String :=
  ⟨s.data.map Char.toLower⟩

/-- `Agent::prompt_confirmation` (agent.rs lines 387–402).  `input` is the
stdin line (`none` for a read error): trimmed and lowercased it must be
`y` or `yes`.  In daemon mode (`auto_confirm`) the prompt is skipped. -/
def prompt_confirmation (auto_confirm : Bool) (input : Option String) : Bool :=
  if auto_confirm then true
  else
    match input with
    | none => false
    | some line =>
      let line := strLower (strTrim line)
      line == "y" || line == "yes"

/-- The shared tail of `execute_tool` (agent.rs lines 360–384): run the tool,
wrap its output in a `ToolResult`, log SAFE/CONFIRMED/FAILED.  The second
component collects the `(status, command)` audit-log entries
(`self.memory.log_command`, a best-effort side effect). -/
def execute_tool_run (tool : ToolSpec) (command_str : Option String)
    (tool_use_id name : String) (input : Json) :
    ContentBlock × List (String × String) :=
  let log_cmd := command_str.getD name
  match tool.execute input with
  | .ok output =>
    let status := if tool.permission_level = .Safe then "SAFE" else "CONFIRMED"
    (.ToolResult tool_use_id output false, [(status, log_cmd)])
  | .error e =>
    (.ToolResult tool_use_id ("Error: " ++ e.toMessage) true, [("FAILED", log_cmd)])

/-- `Agent::execute_tool` (agent.rs lines 276–385).  `tools` is the registry
lookup (`self.tools.get`), `confirm_input` the stdin line a confirmation
prompt would read. -/
def execute_tool (tools : String → Option ToolSpec) (lang : Lang)
    (auto_confirm : Bool) (confirm_input : Option String)
    (tool_use_id name : String) (input : Json) :
    ContentBlock × List (String × String) :=
  match tools name with
  | none => (.ToolResult tool_use_id ("Unknown tool: " ++ name) true, [])
  | some tool =>
    let command_str : Option String :=
      if name = "run_command" then input.getStr "command" else none
    match tool.permission_level with
    | .Safe => execute_tool_run tool command_str tool_use_id name input
    | .RequiresConfirmation =>
      match command_str with
      | some cmd =>
        match SafetyChecker.check cmd with
        | .Blocked reason =>
          (.ToolResult tool_use_id (stringsBlocked lang ++ ": " ++ reason) true,
           [("BLOCKED", cmd)])
        | .RequiresConfirmation _reason =>
          if prompt_confirmation auto_confirm confirm_input then
            execute_tool_run tool command_str tool_use_id name input
          else
            (.ToolResult tool_use_id (stringsCancelled lang) false, [("CANCELLED", cmd)])
        | .Safe => execute_tool_run tool command_str tool_use_id name input
      | none =>
        if prompt_confirmation auto_confirm confirm_input then
          execute_tool_run tool command_str tool_use_id name input
        else
          (.ToolResult tool_use_id (stringsCancelled lang) false, [("CANCELLED", name)])
    | .Blocked =>
      (.ToolResult tool_use_id (stringsBlocked lang) true, [("BLOCKED", name)])

/-- The input validation of `RunCommandTool::execute` (system.rs lines 270–274):
a missing or non-string `command` field is an `InvalidInput` error before
anything runs; otherwise the shell oracle decides the outcome. -/
def run_command_execute (shell : String → Except ToolError String) (input : Json) :
    Except ToolError String :=
  match input.getStr "command" with
  | none => .error (.InvalidInput "Missing 'command' field")
  | some command => shell command

/-! ### ipc.rs / daemon.rs — the IPC layer

`IpcMessage` is the single envelope schema.  (daemon.rs constructs the
`notifications` field used by `poll_notifications`; it is part of the wire
schema of §6 of the spec.)  Timestamps come from the wall clock
(`chrono::Utc::now().to_rfc3339()`), passed in as the `now` parameter;
serde_json parsing of a wire line is the `parse` oracle of
`handle_connection`. -/

/-- `IpcMessageType` from ipc.rs. -/
inductive IpcMessageType where
  | Message
  | Response
  | Action
deriving DecidableEq

/-- `IpcMessage` from ipc.rs (`from` and `to` are Lean keywords, so the fields
are `from_` and `to_`). -/
structure IpcMessage where
  msg_type : IpcMessageType
  from_ : Option String
  body : Option String
  to_ : Option String
  actions : Option (List String)
  action : Option String
  notifications : Option (List Json)
  timestamp : Option String

/-- `error_response` (daemon.rs lines 209–220). -/
def error_response (to_ : Option String) (reason : String) (now : String) : IpcMessage :=
  { msg_type := .Response
    from_ := none
    body := some ("Error: " ++ reason)
    to_ := to_
    actions := none
    action := none
    notifications := none
    timestamp := some now }

/-- The daemon's shared state: the agent behind its mutex and the notification
queue (`VecDeque<(String, String)>`, front of the list = front of the queue). -/
structure DaemonState where
  agent : Agent
  notify_queue : List (String × String)

/-- `process_ipc_message` (daemon.rs lines 109–207). -/
def process_ipc_message (env : AgentEnv) (now : String) (msg : IpcMessage)
    (st : DaemonState) : IpcMessage × DaemonState :=
  match msg.msg_type with
  | .Message =>
    match msg.from_ with
    | none => (error_response none "Missing 'from' field" now, st)
    | some phone =>
      match msg.body with
      | none => (error_response (some phone) "Missing 'body' field" now, st)
      | some body =>
        let (res, agent', _) := chat_as_user env st.agent phone body
        match res with
        | .ok reply =>
          ({ msg_type := .Response, from_ := none, body := some reply,
             to_ := some phone, actions := none, action := none,
             notifications := none, timestamp := some now },
           { st with agent := agent' })
        | .error e =>
          (error_response (some phone) e.toMessage now, { st with agent := agent' })
  | .Action =>
    let action := msg.action.getD ""
    if action = "ping" then
      ({ msg_type := .Response, from_ := none, body := some "pong",
         to_ := msg.from_, actions := none, action := none,
         notifications := none, timestamp := some now }, st)
    else if action = "reset" then
      let phone := msg.from_.getD ""
      let st :=
        if phone ≠ "" then { st with agent := reset_user_conversation st.agent phone }
        else st
      ({ msg_type := .Response, from_ := none, body := some "Conversation reset.",
         to_ := msg.from_, actions := none, action := none,
         notifications := none, timestamp := some now }, st)
    else if action = "poll_notifications" then
      let take := min st.notify_queue.length 10
      let batch := st.notify_queue.take take
      let rest := st.notify_queue.drop take
      let items := batch.map fun q => Json.obj [("to", .str q.1), ("body", .str q.2)]
      ({ msg_type := .Response, from_ := none, body := none,
         to_ := msg.from_, actions := none, action := none,
         notifications := some items, timestamp := some now },
       { st with notify_queue := rest })
    else
      (error_response msg.from_ ("Unknown action: " ++ action) now, st)
  | .Response =>
    (error_response none "Unexpected message type 'response' from client" now, st)

/-- `handle_connection` (daemon.rs lines 75–107): read lines until EOF; an
empty (trimmed) line is skipped; a line `parse` rejects gets one error
envelope (and the loop continues); otherwise the parsed message is processed
and its response written.  Socket writes are modelled as the returned list of
responses, in order. -/
def handle_connection (env : AgentEnv) (now : String)
    (parse : String → Except String IpcMessage) :
    List String → DaemonState → List IpcMessage × DaemonState
  | [], st => ([], st)
  | line :: rest, st =>
    let trimmed := strTrim line
    if trimmed = "" then handle_connection env now parse rest st
    else
      match parse trimmed with
      | .error e =>
        let out := handle_connection env now parse rest st
        ((error_response none ("Invalid JSON: " ++ e) now) :: out.1, out.2)
      | .ok msg =>
        let (resp, st') := process_ipc_message env now msg st
        let out := handle_connection env now parse rest st'
        (resp :: out.1, out.2)

/-! ### Concrete instances used by the witnesses -/

/-- A provider oracle that always requests tool use. -/
def allToolUseEnv : AgentEnv :=
  { complete := fun _ _ =>
      .ok { content := [.ToolUse "t1" "noop" .null]
            stop_reason := .ToolUse
            usage := { input_tokens := 0, output_tokens := 0 } }
    execTool := fun id _ _ => .ToolResult id "ok" false
    systemPromptRes := .ok "sys" }

/-- A daemon-mode agent with no history. -/
def emptyAgent : Agent :=
  { conversation := [], user_conversations := fun _ => none, auto_confirm := true }

/-- A daemon state with two queued notifications. -/
def twoNoteState : DaemonState :=
  { agent := emptyAgent, notify_queue := [("p1", "m1"), ("p2", "m2")] }

/-- A `poll_notifications` action request from "p1". -/
def pollMsg : IpcMessage :=
  { msg_type := .Action, from_ := some "p1", body := none, to_ := none,
    actions := none, action := some "poll_notifications", notifications := none,
    timestamp := none }

/-- A generic tool gated behind confirmation. -/
def confirmToolSpec : ToolSpec :=
  { permission_level := .RequiresConfirmation, execute := fun _ => .ok "done" }

/-- A registry holding only that tool, under the name "mytool". -/
def confirmReg : String → Option ToolSpec :=
  fun n => if n = "mytool" then some confirmToolSpec else none

/-- A shell oracle whose behaviour is irrelevant (validation fails first). -/
def witnessShell : String → Except ToolError String := fun _ => .ok ""

/-- A registry holding `run_command` with its source permission level. -/
def runCommandReg : String → Option ToolSpec :=
  fun n =>
    if n = "run_command" then
      some { permission_level := .RequiresConfirmation
             execute := run_command_execute witnessShell }
    else none

/-! ## Theorems -/

/-- Each `for`-loop of `SafetyChecker::check` returns the reason of the first
matching pattern, in declared order. -/
theorem checkList_eq_find (l : List (Regex × String)) (t : String) :
    checkList l t = (l.find? fun pr => pr.1.isMatch t).map Prod.snd := by
  induction l with
  | nil => rfl
  | cons pr rest ih =>
    obtain ⟨pat, reason⟩ := pr
    by_cases h : pat.isMatch t = true
    · simp [checkList, List.find?_cons_of_pos, h]
    · simp only [Bool.not_eq_true] at h
      simp [checkList, List.find?_cons_of_neg, h, ih]

/-- Every reason attached to a blocked pattern is non-empty. -/
theorem blocked_reason_ne_empty : ∀ pr ∈ blocked_patterns, pr.2 ≠ "" := by decide

/-- C1: `SafetyChecker::check` evaluates the Blocked rule list first, in
declared order with first-match-wins, then (only if no Blocked rule matched)
the RequiresConfirmation rule list with the same semantics, and returns `Safe`
when no rule matches (both loops expressed by `List.find?` on the declared
lists).  Moreover any command matching some Blocked rule yields `Blocked`
with a non-empty reason — regardless of what the confirmation rules would
say, since the confirmation list is not consulted on that path. -/
theorem check_blocked_first_match (command : String) :
    (SafetyChecker.check command =
      match blocked_patterns.find? (fun pr => pr.1.isMatch (strTrim command)) with
      | some pr => SafetyResult.Blocked pr.2
      | none =>
        match confirm_patterns.find? (fun pr => pr.1.isMatch (strTrim command)) with
        | some pr => SafetyResult.RequiresConfirmation pr.2
        | none => SafetyResult.Safe) ∧
    (∀ pr ∈ blocked_patterns, pr.1.isMatch (strTrim command) = true →
      ∃ reason, reason ≠ "" ∧
        SafetyChecker.check command = SafetyResult.Blocked reason) := by
  constructor
  · unfold SafetyChecker.check
    rw [checkList_eq_find, checkList_eq_find]
    cases hb : blocked_patterns.find? fun pr => pr.1.isMatch (strTrim command) with
    | some q => rfl
    | none =>
      cases hc : confirm_patterns.find? fun pr => pr.1.isMatch (strTrim command) with
      | some q => rfl
      | none => rfl
  · intro pr hmem hmatch
    have hsome : (blocked_patterns.find? fun q => q.1.isMatch (strTrim command)).isSome :=
      List.find?_isSome.mpr ⟨pr, hmem, hmatch⟩
    obtain ⟨q, hq⟩ := Option.isSome_iff_exists.mp hsome
    refine ⟨q.2, blocked_reason_ne_empty q (List.mem_of_find?_eq_some hq), ?_⟩
    unfold SafetyChecker.check
    rw [checkList_eq_find, hq]
    rfl

/-- Witness for `check_blocked_first_match`: `"rm -rf /"` matches the first
Blocked rule, so `check` returns `Blocked` with a non-empty reason. -/
theorem check_blocked_first_match_witness :
    ∃ reason, reason ≠ "" ∧
      SafetyChecker.check "rm -rf /" = SafetyResult.Blocked reason :=
  (check_blocked_first_match "rm -rf /").2 bp1
    (by unfold blocked_patterns; exact List.Mem.head _) (by decide)

/-- C9: the literal scenarios — `check("rm -rf /")` is Blocked,
`check("yay -S htop")` is RequiresConfirmation, `check("df -h")` is Safe. -/
theorem check_literal_scenarios :
    SafetyChecker.check "rm -rf /" =
        SafetyResult.Blocked "Recursive deletion of root filesystem" ∧
    SafetyChecker.check "yay -S htop" =
        SafetyResult.RequiresConfirmation "Package installation" ∧
    SafetyChecker.check "df -h" = SafetyResult.Safe :=
  ⟨by decide, by decide, by decide⟩

/-- C4: `cron_matches` is true exactly when the schedule splits into exactly 5
whitespace-separated fields and each field matches its time component, taken
in the order minute, hour, day-of-month, month, day-of-week(Sunday=0); for
one field, `*` matches any value, a parsed integer matches only that value,
and `*/N` matches iff the step parses to a positive `N` dividing the value;
consequently a 4-field schedule never matches and `*/0` never matches. -/
theorem cron_matches_spec (schedule : String) (t : CronTime) :
    (cron_matches schedule t = true ↔
      (split_whitespace schedule).length = 5 ∧
        ∀ fv ∈ (split_whitespace schedule).zip [t.minute, t.hour, t.day, t.month, t.wday],
          field_matches fv.1 fv.2 = true) ∧
    (∀ v : Nat, field_matches "*" v = true) ∧
    (∀ f : String, ∀ n v : Nat, f ≠ "*" → strip_star_slash f.data = none →
      parse_u32 f = some n → (field_matches f v = true ↔ n = v)) ∧
    (∀ f : String, ∀ step : List Char, ∀ v : Nat, strip_star_slash f.data = some step →
      (field_matches f v = true ↔
        ∃ n, parse_u32_chars step = some n ∧ 0 < n ∧ v % n = 0)) ∧
    ((split_whitespace schedule).length = 4 → cron_matches schedule t = false) ∧
    (∀ v : Nat, field_matches "*/0" v = false) := by
  have hcm : ∀ (s : String) (tm : CronTime),
      cron_matches s tm =
        if (split_whitespace s).length ≠ 5 then false
        else
          ((split_whitespace s).zip [tm.minute, tm.hour, tm.day, tm.month, tm.wday]).all
            fun fv => field_matches fv.1 fv.2 :=
    fun s tm => rfl
  refine ⟨?_, fun v => rfl, ?_, ?_, ?_, fun v => rfl⟩
  · rw [hcm]
    by_cases h5 : (split_whitespace schedule).length = 5
    · rw [if_neg (by simp [h5])]
      constructor
      · intro h
        exact ⟨h5, List.all_eq_true.mp h⟩
      · intro h
        exact List.all_eq_true.mpr h.2
    · rw [if_pos h5]
      constructor
      · intro h
        exact (Bool.false_ne_true h).elim
      · intro h
        exact absurd h.1 h5
  · intro f n v hne hss hparse
    rw [field_matches, if_neg hne, hss, hparse]
    simp
  · intro f step v hss
    have hne : f ≠ "*" := by
      intro h
      rw [h] at hss
      simp [strip_star_slash] at hss
    rw [field_matches, if_neg hne, hss]
    rcases hp : parse_u32_chars step with _ | n <;> simp [hp]
  · intro h4
    rw [hcm, if_pos (by simp [h4])]

/-- Witness for `cron_matches_spec`: a daily-9am schedule fires at 09:00, a
4-field schedule never fires, `*/0` never matches. -/
theorem cron_matches_spec_witness :
    cron_matches "0 9 * * *" ⟨0, 9, 21, 2, 6⟩ = true ∧
    cron_matches "0 9 * *" ⟨9, 0, 1, 1, 0⟩ = false ∧
    field_matches "*/0" 12 = false := by
  refine ⟨?_, ?_, ?_⟩
  · exact (cron_matches_spec "0 9 * * *" ⟨0, 9, 21, 2, 6⟩).1.mpr (by decide)
  · exact (cron_matches_spec "0 9 * *" ⟨9, 0, 1, 1, 0⟩).2.2.2.2.1 (by decide)
  · exact (cron_matches_spec "x" ⟨0, 0, 0, 0, 0⟩).2.2.2.2.2 12

/-- The loop body of `chat` performs at most one provider call per remaining
iteration. -/
theorem chatLoop_calls_le (env : AgentEnv) (sys : String) :
    ∀ (fuel : Nat) (conv : List Message),
      (chatLoop env sys fuel conv).providerCalls ≤ fuel := by
  intro fuel
  induction fuel with
  | zero => intro conv; exact Nat.le_refl 0
  | succ n ih =>
    intro conv
    cases h : env.complete sys conv with
    | error e =>
      simp only [chatLoop, h]
      omega
    | ok res =>
      cases hs : res.stop_reason with
      | EndTurn =>
        simp only [chatLoop, h, hs]
        omega
      | MaxTokens =>
        simp only [chatLoop, h, hs]
        omega
      | ToolUse =>
        simp only [chatLoop, h, hs]
        exact Nat.succ_le_succ (ih _)

/-- If every completion comes back `Ok` with stop reason `tool_use`, the loop
burns all its fuel and ends by returning the last text of the conversation it
accumulated. -/
theorem chatLoop_all_tool_use (env : AgentEnv) (sys : String)
    (H : ∀ c, ∃ r, env.complete sys c = .ok r ∧ r.stop_reason = .ToolUse) :
    ∀ (fuel : Nat) (conv : List Message),
      ∃ cv, chatLoop env sys fuel conv =
        { result := .ok (lastText cv), conversation := cv, providerCalls := fuel } := by
  intro fuel
  induction fuel with
  | zero => intro conv; exact ⟨conv, rfl⟩
  | succ n ih =>
    intro conv
    obtain ⟨r, hr, hstop⟩ := H conv
    obtain ⟨cv, hcv⟩ := ih
      (if (r.tool_uses.map fun t => env.execTool t.1 t.2.1 t.2.2).isEmpty then
        conv ++ [{ role := .Assistant, content := r.content }]
      else
        conv ++ [{ role := .Assistant, content := r.content }] ++
          [Message.tool_results (r.tool_uses.map fun t => env.execTool t.1 t.2.1 t.2.2)])
    refine ⟨cv, ?_⟩
    simp only [chatLoop, hr, hstop]
    rw [hcv]

/-- C2: `chat` makes at most `MAX_TOOL_LOOP_ITERATIONS = 10` provider
round-trips; and if every round-trip returns `tool_use` (and the system prompt
was built), the cap is exhausted and `chat` returns `Ok` with the text content
of the last conversation message instead of an error. -/
theorem chat_provider_call_bound (env : AgentEnv) (conversation : List Message)
    (user_message : String) :
    (chat env conversation user_message).providerCalls ≤ MAX_TOOL_LOOP_ITERATIONS ∧
    (∀ sys0, env.systemPromptRes = .ok sys0 →
      (∀ sys c, ∃ r, env.complete sys c = .ok r ∧ r.stop_reason = .ToolUse) →
      (chat env conversation user_message).providerCalls = MAX_TOOL_LOOP_ITERATIONS ∧
        (chat env conversation user_message).result =
          .ok (lastText (chat env conversation user_message).conversation)) := by
  constructor
  · rw [chat]
    cases hs : env.systemPromptRes with
    | error e => exact Nat.zero_le _
    | ok sys => exact chatLoop_calls_le env sys _ _
  · intro sys0 hs H
    obtain ⟨cv, hcv⟩ :=
      chatLoop_all_tool_use env sys0 (H sys0) MAX_TOOL_LOOP_ITERATIONS
        (conversation ++ [Message.user user_message])
    simp only [chat, hs]
    rw [hcv]
    exact ⟨rfl, rfl⟩

/-- Witness for `chat_provider_call_bound`: under the always-`tool_use`
provider, `chat` stops after exactly 10 round-trips with an `Ok` result. -/
theorem chat_provider_call_bound_witness :
    (chat allToolUseEnv [] "hi").providerCalls = MAX_TOOL_LOOP_ITERATIONS ∧
      (chat allToolUseEnv [] "hi").result =
        .ok (lastText (chat allToolUseEnv [] "hi").conversation) :=
  (chat_provider_call_bound allToolUseEnv [] "hi").2 "sys" rfl
    (fun _ _ => ⟨_, rfl, rfl⟩)

/-- C3: `chat_as_user` runs `chat` on the named identity's stored conversation,
stores the resulting conversation back under that identity, restores the
previously active conversation (this holds whether `chat` returned `Ok` or
`Err` — the returned result is passed through either way), touches no other
identity's entry, and reads nothing but that identity's entry (two agents
agreeing on it get the same result and the same new entry).  Also
`reset_user_conversation` on one identity leaves every other entry unchanged. -/
theorem chat_as_user_isolation (env : AgentEnv) (a : Agent) (phone user_message : String) :
    (chat_as_user env a phone user_message).1 =
        (chat env ((a.user_conversations phone).getD []) user_message).result ∧
    (chat_as_user env a phone user_message).2.1.user_conversations phone =
        some (chat env ((a.user_conversations phone).getD []) user_message).conversation ∧
    (chat_as_user env a phone user_message).2.1.conversation = a.conversation ∧
    (∀ k, k ≠ phone →
      (chat_as_user env a phone user_message).2.1.user_conversations k =
        a.user_conversations k) ∧
    (∀ b : Agent, b.user_conversations phone = a.user_conversations phone →
      (chat_as_user env b phone user_message).1 =
          (chat_as_user env a phone user_message).1 ∧
        (chat_as_user env b phone user_message).2.1.user_conversations phone =
          (chat_as_user env a phone user_message).2.1.user_conversations phone) ∧
    (∀ k, k ≠ phone →
      (reset_user_conversation a phone).user_conversations k = a.user_conversations k) := by
  refine ⟨rfl, by simp [chat_as_user], rfl, ?_, ?_, ?_⟩
  · intro k hk
    simp [chat_as_user, hk]
  · intro b hb
    constructor
    · simp [chat_as_user, hb]
    · simp [chat_as_user, hb]
  · intro k hk
    simp [reset_user_conversation, hk]

/-- Witness for `chat_as_user_isolation` at a concrete two-identity agent:
identity "b" keeps its stored conversation when "a" chats, and resetting "a"
leaves "b" untouched. -/
theorem chat_as_user_isolation_witness :
    (chat_as_user allToolUseEnv
        { conversation := []
          user_conversations := fun k => if k = "b" then some [Message.user "hello-b"] else none
          auto_confirm := true } "a" "hi").2.1.user_conversations "b" =
      some [Message.user "hello-b"] ∧
    (reset_user_conversation
        { conversation := []
          user_conversations := fun k => if k = "b" then some [Message.user "hello-b"] else none
          auto_confirm := true } "a").user_conversations "b" =
      some [Message.user "hello-b"] := by
  constructor
  · rw [(chat_as_user_isolation allToolUseEnv
      { conversation := []
        user_conversations := fun k => if k = "b" then some [Message.user "hello-b"] else none
        auto_confirm := true } "a" "hi").2.2.2.1 "b" (by decide)]
    simp
  · rw [(chat_as_user_isolation allToolUseEnv
      { conversation := []
        user_conversations := fun k => if k = "b" then some [Message.user "hello-b"] else none
        auto_confirm := true } "a" "hi").2.2.2.2.2 "b" (by decide)]
    simp

/-- C5: `run_automation` runs `chat` on a fresh empty conversation, returns its
result, restores the previously active conversation afterwards, and leaves
every identity's stored conversation exactly as it was. -/
theorem run_automation_frame (env : AgentEnv) (a : Agent) (action : String) :
    (run_automation env a action).1 = (chat env [] action).result ∧
    (run_automation env a action).2.1.conversation = a.conversation ∧
    (∀ k, (run_automation env a action).2.1.user_conversations k =
      a.user_conversations k) := by
  exact ⟨rfl, rfl, fun k => rfl⟩

/-- `List.take` of `min length n` is `List.take n`. -/
theorem take_min_length (l : List (String × String)) (n : Nat) :
    l.take (min l.length n) = l.take n := by
  rcases Nat.le_total l.length n with h | h
  · rw [Nat.min_eq_left h, List.take_length, List.take_of_length_le h]
  · rw [Nat.min_eq_right h]

/-- `List.drop` of `min length n` is `List.drop n`. -/
theorem drop_min_length (l : List (String × String)) (n : Nat) :
    l.drop (min l.length n) = l.drop n := by
  rcases Nat.le_total l.length n with h | h
  · rw [Nat.min_eq_left h, List.drop_length, List.drop_eq_nil_of_le h]
  · rw [Nat.min_eq_right h]

/-- C6: a non-empty line that fails to parse as a JSON `IpcMessage` yields
exactly one error envelope on the same connection, the daemon state is
untouched by it, and the loop goes on: the remaining lines produce exactly
what they would produce on their own from the same state. -/
theorem malformed_line_one_error_envelope (env : AgentEnv) (now : String)
    (parse : String → Except String IpcMessage) (line : String) (rest : List String)
    (st : DaemonState) (e : String)
    (hne : strTrim line ≠ "") (hp : parse (strTrim line) = .error e) :
    handle_connection env now parse (line :: rest) st =
      (error_response none ("Invalid JSON: " ++ e) now ::
          (handle_connection env now parse rest st).1,
        (handle_connection env now parse rest st).2) := by
  simp only [handle_connection]
  rw [if_neg hne, hp]

/-- Witness for `malformed_line_one_error_envelope`: a single garbage line
gives one error envelope and leaves the state as-is. -/
theorem malformed_line_one_error_envelope_witness :
    handle_connection allToolUseEnv "T" (fun _ => .error "x") ["bad"] twoNoteState =
      ([error_response none "Invalid JSON: x" "T"], twoNoteState) := by
  rw [malformed_line_one_error_envelope allToolUseEnv "T" (fun _ => .error "x")
    "bad" [] twoNoteState "x" (by decide) rfl]
  rfl

/-- C7: the `poll_notifications` action removes exactly `min (queue length) 10`
items from the front of the queue, returns precisely those items (in FIFO
order) as the response's notifications list, leaves the rest in their
original order, and does not touch the agent. -/
theorem poll_notifications_drain (env : AgentEnv) (now : String) (msg : IpcMessage)
    (st : DaemonState) (hty : msg.msg_type = .Action)
    (ha : msg.action = some "poll_notifications") :
    (process_ipc_message env now msg st).1.notifications =
        some ((st.notify_queue.take 10).map
          fun q => Json.obj [("to", .str q.1), ("body", .str q.2)]) ∧
    (process_ipc_message env now msg st).2.notify_queue = st.notify_queue.drop 10 ∧
    (process_ipc_message env now msg st).2.agent = st.agent ∧
    st.notify_queue =
      st.notify_queue.take 10 ++ (process_ipc_message env now msg st).2.notify_queue ∧
    (st.notify_queue.take 10).length = min st.notify_queue.length 10 := by
  have hred : process_ipc_message env now msg st =
      ({ msg_type := .Response, from_ := none, body := none,
         to_ := msg.from_, actions := none, action := none,
         notifications := some ((st.notify_queue.take (min st.notify_queue.length 10)).map
           fun q => Json.obj [("to", .str q.1), ("body", .str q.2)]),
         timestamp := some now },
       { st with notify_queue := st.notify_queue.drop (min st.notify_queue.length 10) }) := by
    simp only [process_ipc_message, hty, ha]
    rfl
  rw [hred, take_min_length, drop_min_length]
  refine ⟨rfl, rfl, rfl, ?_, ?_⟩
  · exact (List.take_append_drop 10 st.notify_queue).symm
  · rw [List.length_take, Nat.min_comm]

/-- Witness for `poll_notifications_drain`: with two queued notifications both
are returned and the queue is left empty. -/
theorem poll_notifications_drain_witness :
    (process_ipc_message allToolUseEnv "T" pollMsg twoNoteState).1.notifications =
      some [Json.obj [("to", .str "p1"), ("body", .str "m1")],
            Json.obj [("to", .str "p2"), ("body", .str "m2")]] ∧
    (process_ipc_message allToolUseEnv "T" pollMsg twoNoteState).2.notify_queue = [] := by
  have h := poll_notifications_drain allToolUseEnv "T" pollMsg twoNoteState rfl rfl
  exact ⟨h.1, h.2.1⟩

/-- C8: the confirmation prompt is satisfied exactly by an input line that,
trimmed and lowercased, is "y" or "yes" (a read error counts as refusal); and
when a RequiresConfirmation tool's prompt is refused — whether the generic
prompt or the safety-gated `run_command` prompt — `execute_tool` reports a
*non-error* ToolResult carrying the "cancelled" message (the audit log
records CANCELLED, see `execute_tool`).  The statement covers the interactive
path (`auto_confirm = false`); daemon mode skips the prompt by design. -/
theorem confirmation_y_yes_cancel :
    (∀ s : String, prompt_confirmation false (some s) = true ↔
      (strLower (strTrim s) = "y" ∨ strLower (strTrim s) = "yes")) ∧
    prompt_confirmation false none = false ∧
    (∀ (tools : String → Option ToolSpec) (lang : Lang) (inp : Option String)
        (id name : String) (input : Json) (tool : ToolSpec),
      tools name = some tool →
      tool.permission_level = .RequiresConfirmation →
      prompt_confirmation false inp = false →
      (∀ cmd, (if name = "run_command" then input.getStr "command" else none) = some cmd →
        ∃ r, SafetyChecker.check cmd = SafetyResult.RequiresConfirmation r) →
      (execute_tool tools lang false inp id name input).1 =
        ContentBlock.ToolResult id (stringsCancelled lang) false) := by
  refine ⟨?_, rfl, ?_⟩
  · intro s
    simp [prompt_confirmation]
  · intro tools lang inp id name input tool htool hperm hconf hsafe
    simp only [execute_tool, htool, hperm]
    cases hcs : (if name = "run_command" then input.getStr "command" else none) with
    | none => simp [hconf]
    | some cmd =>
      obtain ⟨r, hr⟩ := hsafe cmd hcs
      simp [hr, hconf]

/-- Witness for `confirmation_y_yes_cancel`: a "no" answer to the generic
confirmation prompt of a RequiresConfirmation tool yields the non-error
cancelled ToolResult. -/
theorem confirmation_y_yes_cancel_witness :
    (execute_tool confirmReg .English false (some "no") "id1" "mytool" Json.null).1 =
      ContentBlock.ToolResult "id1" "Cancelled." false :=
  confirmation_y_yes_cancel.2.2 confirmReg .English (some "no") "id1" "mytool"
    Json.null confirmToolSpec rfl rfl (by decide)
    (fun cmd h => Option.noConfusion h)

/-- C10: when `run_command` is called with an input whose `command` field is
absent or not a JSON string, `execute_tool` never consults the Safety Engine:
it behaves exactly like any generic RequiresConfirmation tool — a direct
confirmation prompt, then execution — and the execution itself fails with the
`InvalidInput` error of `RunCommandTool::execute`.  The equation below gives
the complete behaviour for both prompt outcomes. -/
theorem run_command_missing_command (tools : String → Option ToolSpec)
    (shell : String → Except ToolError String) (lang : Lang) (ac : Bool)
    (inp : Option String) (id : String) (input : Json)
    (hreg : tools "run_command" =
      some { permission_level := .RequiresConfirmation
             execute := run_command_execute shell })
    (hcmd : input.getStr "command" = none) :
    execute_tool tools lang ac inp id "run_command" input =
      if prompt_confirmation ac inp then
        (ContentBlock.ToolResult id "Error: Invalid tool input: Missing 'command' field" true,
         [("FAILED", "run_command")])
      else
        (ContentBlock.ToolResult id (stringsCancelled lang) false,
         [("CANCELLED", "run_command")]) := by
  have h2 : execute_tool_run
      { permission_level := .RequiresConfirmation, execute := run_command_execute shell }
      none id "run_command" input =
      (ContentBlock.ToolResult id "Error: Invalid tool input: Missing 'command' field" true,
       [("FAILED", "run_command")]) := by
    simp [execute_tool_run, run_command_execute, hcmd, ToolError.toMessage]
  by_cases hc : prompt_confirmation ac inp
  · rw [if_pos hc]
    simp only [execute_tool, hreg, hcmd]
    simp [hc, h2]
  · rw [if_neg hc]
    simp only [execute_tool, hreg, hcmd]
    simp [hc]

/-- Witness for `run_command_missing_command`: a `command` field holding a
number (not a string) skips the safety gate, the prompt is answered "y", and
the tool then fails with the invalid-input error. -/
theorem run_command_missing_command_witness :
    execute_tool runCommandReg .English false (some "y") "i1" "run_command"
        (Json.obj [("command", Json.num 7)]) =
      (ContentBlock.ToolResult "i1" "Error: Invalid tool input: Missing 'command' field" true,
       [("FAILED", "run_command")]) := by
  rw [run_command_missing_command runCommandReg witnessShell .English false
    (some "y") "i1" (Json.obj [("command", Json.num 7)]) rfl rfl]
  rfl

/-- Witness for `run_automation_frame`: running an automation on the empty
agent leaves identity "b"'s (absent) stored conversation absent. -/
theorem run_automation_frame_witness :
    (run_automation allToolUseEnv emptyAgent "act").2.1.user_conversations "b" = none :=
  (run_automation_frame allToolUseEnv emptyAgent "act").2.2 "b"
